import Mathlib

/-!
Verification of the Creda finance-advisory decision engine
(`Creda_Fastapi/fastapi2_finance.py`, class `FinanceEngine`).

The Python code is shallowly embedded over the rationals: every float is
modelled as a `ℚ`, `round(x, 3)` is modelled as exact round-half-even at
three decimals (`pyRound3`), Python dicts holding allocations are modelled
as association lists `List (String × ℚ)`, and the two external stochastic
dependencies — the KMeans persona clusterer (fitted at startup on
`np.random` synthetic data) and the ChromaDB similarity retriever — are
modelled as oracle inputs (a persona id `Fin 5`, resp. the list of
retrieved documents with distances).  Code that can raise is modelled
with `Option` (`none` = the exception propagates).
-/

namespace Creda

/-- Round-half-even to the nearest integer (the tie-breaking rule used by
Python's built-in `round`). -/
def roundHalfEven (q : ℚ) : ℤ :=
  if q - ⌊q⌋ < 1/2 then ⌊q⌋
  else if 1/2 < q - ⌊q⌋ then ⌊q⌋ + 1
  else if ⌊q⌋ % 2 = 0 then ⌊q⌋ else ⌊q⌋ + 1

/-- Model of Python `round(x, 3)` on our rational embedding of floats. -/
def pyRound3 (q : ℚ) : ℚ := (roundHalfEven (1000 * q) : ℚ) / 1000

/-- `UserProfile` pydantic model (ints as `ℤ`, floats as `ℚ`). -/
structure UserProfile where
  age : ℤ
  income : ℚ
  savings : ℚ
  dependents : ℤ := 0
  risk_tolerance : ℤ
  goal_type : String := "retirement"
  time_horizon : ℤ := 25
  esg_preference : String := "none"
deriving DecidableEq, Repr

/-- `risk_mult` of the five personas fixed in `initialize_models`
(ids 0..4: Young Conservative, Young Aggressive, Mid-age Balanced,
Pre-retirement Conservative, High-Income Optimizer). -/
def personaRiskMult : Fin 5 → ℚ
  | 0 => 8/10
  | 1 => 13/10
  | 2 => 1
  | 3 => 6/10
  | 4 => 11/10

/-- `name` of the five personas fixed in `initialize_models`. -/
def personaName : Fin 5 → String
  | 0 => "Young Conservative"
  | 1 => "Young Aggressive"
  | 2 => "Mid-age Balanced"
  | 3 => "Pre-retirement Conservative"
  | 4 => "High-Income Optimizer"

/-- Age glidepath from `get_user_persona`:
`base_equity_pct = min(0.85, max(0.15, (110 - profile.age) / 100))`. -/
def baseEquityPct (age : ℤ) : ℚ := min (85/100) (max (15/100) ((110 - (age:ℚ)) / 100))

/-- Spec-side definition (for the refinement statement of the glidepath):
`clamp(lo, hi, x)` written exactly as the spec reads it. -/
def clampQ (lo hi x : ℚ) : ℚ := min hi (max lo x)

/-- `risk_factor = profile.risk_tolerance / 5.0`. -/
def riskFactor (rt : ℤ) : ℚ := (rt:ℚ) / 5

/-- Income tier factor from `get_user_persona`
(`> 25_00_000 → 1.1`, `< 5_00_000 → 0.9`, else `1.0`). -/
def incomeFactor (income : ℚ) : ℚ :=
  if income > 2500000 then 11/10
  else if income < 500000 then 9/10
  else 1

/-- `dependents_factor = max(0.8, 1 - (profile.dependents * 0.05))`. -/
def dependentsFactor (dep : ℤ) : ℚ := max (8/10) (1 - (dep:ℚ) * (5/100))

/-- Final equity fraction of `get_user_persona`:
product of the four factors and the persona risk multiplier, clamped
to `[0.10, 0.85]` by `max(0.10, min(0.85, equity_pct))`. -/
def equityPct (pid : Fin 5) (p : UserProfile) : ℚ :=
  max (10/100) (min (85/100)
    (baseEquityPct p.age * personaRiskMult pid * riskFactor p.risk_tolerance *
      incomeFactor p.income * dependentsFactor p.dependents))

/-- `_calculate_enhanced_allocation`: 7-way asset split, each entry rounded
to 3 decimals, then renormalized (and re-rounded) when the rounded total
drifts from 1 by more than 0.001.  Allocations are association lists in
the insertion order of the Python dict literal. -/
def calculateEnhancedAllocation (equity_pct : ℚ) (riskMult : ℚ) : List (String × ℚ) :=
  let remaining_pct := 1 - equity_pct
  let large_cap :=
    if riskMult > 11/10 then equity_pct * (50/100)
    else if riskMult < 8/10 then equity_pct * (65/100)
    else equity_pct * (55/100)
  let mid_small_cap :=
    if riskMult > 11/10 then equity_pct * (35/100)
    else if riskMult < 8/10 then equity_pct * (20/100)
    else equity_pct * (30/100)
  let intl_equity := equity_pct * (15/100)
  let govt_bonds := remaining_pct * (60/100)
  let corporate_bonds := remaining_pct * (25/100)
  let gold_pct := min (10/100) (max (5/100) (remaining_pct * (15/100)))
  let cash_pct := remaining_pct - govt_bonds - corporate_bonds - gold_pct
  let allocation : List (String × ℚ) :=
    [("large_cap_equity", pyRound3 large_cap),
     ("mid_small_cap_equity", pyRound3 mid_small_cap),
     ("international_equity", pyRound3 intl_equity),
     ("government_bonds", pyRound3 govt_bonds),
     ("corporate_bonds", pyRound3 corporate_bonds),
     ("gold", pyRound3 gold_pct),
     ("cash_equivalents", pyRound3 (max (2/100) cash_pct))]
  let total := (allocation.map Prod.snd).sum
  if |total - 1| > 1/1000 then
    allocation.map (fun kv => (kv.1, pyRound3 (kv.2 / total)))
  else allocation

/-- The safe default returned by the `except` branch of `get_user_persona`. -/
def safeDefaultAllocation : List (String × ℚ) :=
  [("equity", 60/100), ("debt", 30/100), ("gold", 8/100), ("cash", 2/100)]

/-- Result of `get_user_persona` (normal path).  The portfolio-metrics
sub-record (`_calculate_portfolio_metrics`) and the formatted `reasoning`
string are not embedded: the metrics take a real square root
(`portfolio_variance ** 0.5`), which has no exact rational value, and no
claim refers to them or to the reasoning text. -/
structure PersonaResult where
  persona : String
  personaId : ℤ
  allocation : List (String × ℚ)
  glidepathEquity : ℚ
deriving DecidableEq, Repr

/-- `get_user_persona`.  The KMeans clusterer is fitted at startup on
`np.random` synthetic data, so the predicted cluster is an oracle input
`pid : Fin 5`; every arithmetic step of the `try` body is total on finite
numerics (the `savings / income` division is guarded by `income > 0`),
so the body never raises and the `except` fallback is unreachable. -/
def getUserPersona (pid : Fin 5) (p : UserProfile) : PersonaResult :=
  let e := equityPct pid p
  { persona := personaName pid
    personaId := (pid : ℤ)
    allocation := calculateEnhancedAllocation e (personaRiskMult pid)
    glidepathEquity := pyRound3 (baseEquityPct p.age) }

/-- A `UserProfile` with an invalid (negative) age but otherwise ordinary
fields; used to probe the input-validation claim. -/
def invalidAgeProfile : UserProfile :=
  { age := -5, income := 1000000, savings := 100000, dependents := 0, risk_tolerance := 3 }

/-- A fully valid `UserProfile` (age 26, income 10,00,000, risk 3). -/
def midProfile : UserProfile :=
  { age := 26, income := 1000000, savings := 200000, dependents := 0, risk_tolerance := 3 }

/- ------------------------------------------------------------------
Rebalancing Analyzer (`check_rebalancing_needed`)
------------------------------------------------------------------ -/

/-- Python `dict.get(asset, 0)` over the association-list model. -/
def lookupOr (l : List (String × ℚ)) (k : String) (d : ℚ) : ℚ :=
  match l.find? (fun kv => kv.1 = k) with
  | some kv => kv.2
  | none => d

/-- One rebalancing action record. -/
structure RebalancingAction where
  asset : String
  action : String
  current : ℚ
  target : ℚ
  driftPct : ℚ
  amountChange : ℚ
deriving DecidableEq, Repr

/-- Result of `check_rebalancing_needed` (normal path; its `try` body is
total on rationals, so the `except` branch is unreachable). -/
structure RebalancingResult where
  rebalancingNeeded : Bool
  maxDriftPct : ℚ
  thresholdUsed : ℚ
  actionsRequired : List RebalancingAction
  priority : String
  estimatedCost : ℚ
  nextReviewDays : ℤ
deriving DecidableEq, Repr

/-- Loop body of `check_rebalancing_needed`: one target entry, updating the
accumulated `(actions, max_drift)` pair. -/
def rebalanceStep (current : List (String × ℚ)) (threshold : ℚ)
    (acc : List RebalancingAction × ℚ) (entry : String × ℚ) :
    List RebalancingAction × ℚ :=
  let c := lookupOr current entry.1 0
  let t := entry.2
  let drift := |c - t|
  let driftPct := if t > 0 then drift / t else 0
  if driftPct > threshold then
    (acc.1 ++ [{ asset := entry.1
                 action := if c < t then "increase" else "decrease"
                 current := pyRound3 c
                 target := pyRound3 t
                 driftPct := pyRound3 driftPct
                 amountChange := pyRound3 drift }],
     max acc.2 driftPct)
  else acc

/-- `check_rebalancing_needed(current, target, threshold)`. -/
def checkRebalancingNeeded (current target : List (String × ℚ))
    (threshold : ℚ := 5/100) : RebalancingResult :=
  let res := target.foldl (rebalanceStep current threshold) ([], 0)
  let actions := res.1
  let maxDrift := res.2
  let needed := decide (0 < actions.length)
  { rebalancingNeeded := needed
    maxDriftPct := pyRound3 maxDrift
    thresholdUsed := threshold
    actionsRequired := actions
    priority := if maxDrift > 10/100 then "high" else if maxDrift > 7/100 then "medium" else "low"
    estimatedCost := (actions.length : ℚ) * (1/1000)
    nextReviewDays := if needed then 30 else 90 }

/- ------------------------------------------------------------------
RAG Answer Synthesizer (`rag_query`)
------------------------------------------------------------------ -/

/-- Metadata of a retrieved `KnowledgeDocument` (the code reads these keys
with `metadata.get` defaults; the seeded corpus always sets them). -/
structure DocMeta where
  source : String
  authority : String
  confidence : ℚ
deriving DecidableEq, Repr

/-- One candidate document as returned by the external similarity
retriever (ChromaDB), an oracle input to `rag_query`. -/
structure RetrievedDoc where
  text : String
  meta : DocMeta
  distance : ℚ
deriving DecidableEq, Repr

/-- `RAGResponse` pydantic model. -/
structure RAGResponse where
  answer : String
  sources : List String
  confidence : ℚ
deriving DecidableEq, Repr

/-- `similarity = 1 - (distance / 2)` (cosine-distance convention). -/
def similarityOf (distance : ℚ) : ℚ := 1 - distance / 2

/-- The similarity filter of `rag_query`: keep documents whose similarity
reaches the threshold (`similarity >= similarity_threshold`). -/
def filterBySimilarity (docs : List RetrievedDoc) (threshold : ℚ) : List RetrievedDoc :=
  docs.filter (fun d => threshold ≤ similarityOf d.distance)

/-- Python `list(set(xs))`.  CPython's set iteration order is
hash-dependent and unspecified; we model it canonically as duplicate
removal keeping last occurrences (`List.dedup`), which has the same
element set and cardinality. -/
def pySetList (xs : List String) : List String := xs.dedup

/-- Per-document scores `doc_confidence * similarity` of the surviving
documents. -/
def confidenceScores (docs : List RetrievedDoc) (threshold : ℚ) : List ℚ :=
  (filterBySimilarity docs threshold).map (fun d => d.meta.confidence * similarityOf d.distance)

/-- Overall confidence of `rag_query`: mean of the per-document scores,
boosted by 1.1 (capped at 0.95) when more than one distinct authority
survives. -/
def overallConfidence (docs : List RetrievedDoc) (threshold : ℚ) : ℚ :=
  let scores := confidenceScores docs threshold
  let authorities := (filterBySimilarity docs threshold).map (fun d => d.meta.authority)
  if scores.length ≠ 0 then
    let avg := scores.sum / (scores.length : ℚ)
    if 1 < (pySetList authorities).length then min (avg * (11/10)) (95/100) else avg
  else 1/2

/-- `rag_query(query, n_results, similarity_threshold)`.

Oracle inputs: `docs` is the retriever's result (its top-`n_results`
candidates with distances), `procTime`/`procTimeStr` are the measured
elapsed seconds and their `"{:.2f}"` rendering, and `genAnswer` stands
for `generate_enhanced_answer`, whose string output no claim constrains. -/
def ragQuery (genAnswer : String → List RetrievedDoc → String)
    (procTime : ℚ) (procTimeStr : String)
    (query : String) (docs : List RetrievedDoc)
    (threshold : ℚ := 7/10) : RAGResponse :=
  if docs.isEmpty then
    { answer := "I don\x27t have specific information about this topic in my knowledge base."
      sources := []
      confidence := 1/10 }
  else
    let filtered := filterBySimilarity docs threshold
    if filtered.isEmpty then
      { answer := "I found some information but it may not be directly relevant to your question. Please rephrase your query or ask about specific financial topics."
        sources := []
        confidence := 3/10 }
    else
      let sources := filtered.map (fun d => d.meta.source)
      let avgConfidence := overallConfidence docs threshold
      if avgConfidence < 6/10 then
        { answer := "I found some information but I\x27m not confident enough to provide a reliable answer. Please consult with a financial advisor for personalized guidance."
          sources := pySetList sources
          confidence := avgConfidence }
      else
        let uniqueSources :=
          if procTime < 1/2 then
            pySetList sources ++ ["Processed in " ++ procTimeStr ++ "s"]
          else pySetList sources
        { answer := genAnswer query filtered
          sources := uniqueSources
          confidence := pyRound3 avgConfidence }

/-- A concrete retrieval candidate used to exercise the synthesized-answer
path: an authoritative document at distance 0 (similarity 1). -/
def sampleDoc : RetrievedDoc :=
  { text := "Keep an emergency fund of six months of expenses"
    meta := { source := "RBI", authority := "RBI", confidence := 9/10 }
    distance := 0 }

/- ------------------------------------------------------------------
Adaptive Budget Optimizer (multi-armed bandit)
------------------------------------------------------------------ -/

/-- One bandit arm: `{"reward_sum": .., "count": .., "base_allocation": ..}`. -/
structure BanditArm where
  rewardSum : ℚ
  count : ℕ
  baseAllocation : ℚ
deriving DecidableEq, Repr

/-- The three process-wide bandit arms. -/
structure BanditState where
  needs : BanditArm
  wants : BanditArm
  savings : BanditArm
deriving DecidableEq, Repr

/-- Bandit state created in `FinanceEngine.__init__`. -/
def initialBandits : BanditState :=
  { needs := { rewardSum := 0, count := 0, baseAllocation := 50/100 }
    wants := { rewardSum := 0, count := 0, baseAllocation := 30/100 }
    savings := { rewardSum := 0, count := 0, baseAllocation := 20/100 } }

/-- A feedback event `{"category": .., "satisfaction": .., "success": ..}`. -/
structure Feedback where
  category : String
  satisfaction : ℚ
  success : Bool
deriving DecidableEq, Repr

/-- Feedback of the documented shape: satisfaction on the 1-5 scale. -/
def validFeedback (f : Feedback) : Prop := 1 ≤ f.satisfaction ∧ f.satisfaction ≤ 5

/-- `_update_bandit_rewards` on a single arm. -/
def updateArm (arm : BanditArm) (satisfaction : ℚ) (success : Bool) : BanditArm :=
  let reward := if success then (satisfaction - 1) / 4 else 0
  let count := arm.count + 1
  let rewardSum := arm.rewardSum + reward
  let avgReward := rewardSum / (count : ℚ)
  let baseAllocation :=
    if avgReward > 7/10 then min (arm.baseAllocation + 5/100) (8/10)
    else if avgReward < 3/10 then max (arm.baseAllocation - 5/100) (1/10)
    else arm.baseAllocation
  { rewardSum := rewardSum, count := count, baseAllocation := baseAllocation }

/-- `_update_bandit_rewards`: dispatch on the feedback category (unknown
categories leave the state unchanged). -/
def updateBanditRewards (st : BanditState) (f : Feedback) : BanditState :=
  if f.category = "needs" then { st with needs := updateArm st.needs f.satisfaction f.success }
  else if f.category = "wants" then { st with wants := updateArm st.wants f.satisfaction f.success }
  else if f.category = "savings" then { st with savings := updateArm st.savings f.satisfaction f.success }
  else st

/-- Soundness invariant of one bandit arm: the accumulated reward lies
between 0 and the observation count (each per-event reward is in `[0,1]`
for feedback of the documented shape). -/
def armSound (arm : BanditArm) : Prop :=
  0 ≤ arm.rewardSum ∧ arm.rewardSum ≤ (arm.count : ℚ)

/-- Two bandit states agreeing on every arm's `reward_sum` and `count`
(but possibly differing in every `base_allocation`). -/
def armsAgree (st1 st2 : BanditState) : Prop :=
  st1.needs.rewardSum = st2.needs.rewardSum ∧ st1.needs.count = st2.needs.count ∧
  st1.wants.rewardSum = st2.wants.rewardSum ∧ st1.wants.count = st2.wants.count ∧
  st1.savings.rewardSum = st2.savings.rewardSum ∧ st1.savings.count = st2.savings.count

/-- `initialBandits` with every arm's `base_allocation` overwritten to
0.77 (reward statistics unchanged); used to witness that the optimizer
ignores `base_allocation`. -/
def skewedBandits : BanditState :=
  { needs := { rewardSum := 0, count := 0, baseAllocation := 77/100 }
    wants := { rewardSum := 0, count := 0, baseAllocation := 77/100 }
    savings := { rewardSum := 0, count := 0, baseAllocation := 77/100 } }

/-- One historical expense (`{"category": .., "amount": ..}`). -/
structure Expense where
  amount : ℚ
  category : String
deriving DecidableEq, Repr

def needsCategories : List String :=
  ["Food & Dining", "Bills & Utilities", "Healthcare", "Transportation"]

def wantsCategories : List String := ["Entertainment", "Shopping", "Travel"]

def savingsCategories : List String := ["Investments", "Insurance"]

/-- The boolean spending-pattern flags of `_analyze_spending_patterns`. -/
structure SpendingPatterns where
  highNeedsSpender : Bool
  highWantsSpender : Bool
  goodSaver : Bool
  needsRebalancing : Bool
deriving DecidableEq, Repr

/-- Result of `_analyze_spending_patterns` (the per-category breakdown
dict is omitted; no claim refers to it). -/
structure SpendingAnalysis where
  totalExpenses : ℚ
  needsFrac : ℚ
  wantsFrac : ℚ
  savingsFrac : ℚ
  patterns : SpendingPatterns
deriving DecidableEq, Repr

/-- `_analyze_spending_patterns` on a non-empty expense list. -/
def analyzeSpendingPatterns (expenses : List Expense) : SpendingAnalysis :=
  let totalSpent := (expenses.map (fun e => e.amount)).sum
  let needsTotal := ((expenses.filter (fun e => e.category ∈ needsCategories)).map (fun e => e.amount)).sum
  let wantsTotal := ((expenses.filter (fun e => e.category ∈ wantsCategories)).map (fun e => e.amount)).sum
  let savingsTotal := ((expenses.filter (fun e => e.category ∈ savingsCategories)).map (fun e => e.amount)).sum
  let nf := if totalSpent > 0 then needsTotal / totalSpent else 0
  let wf := if totalSpent > 0 then wantsTotal / totalSpent else 0
  let sf := if totalSpent > 0 then savingsTotal / totalSpent else 0
  { totalExpenses := totalSpent
    needsFrac := nf
    wantsFrac := wf
    savingsFrac := sf
    patterns :=
      { highNeedsSpender := decide (nf > 60/100)
        highWantsSpender := decide (wf > 40/100)
        goodSaver := decide (sf > 25/100)
        needsRebalancing := decide (|nf - 50/100| > 15/100) } }

/-- The outcome of the two `np.random` draws one arm makes in
`_calculate_adaptive_allocation`: `u = np.random.random()` and
`delta = np.random.uniform(-0.05, 0.05)`. -/
structure Draw where
  u : ℚ
  delta : ℚ
deriving DecidableEq, Repr

/-- The three arms' draws for one allocation request. -/
structure Draws where
  needs : Draw
  wants : Draw
  savings : Draw
deriving DecidableEq, Repr

/-- The per-arm epsilon-greedy adjustment of `_calculate_adaptive_allocation`:
explore (random perturbation) with probability epsilon or when the arm has
no observations, otherwise exploit `(average_reward - 0.5) * 0.1`. -/
def armAdjustment (arm : BanditArm) (d : Draw) (epsilon : ℚ) : ℚ :=
  if d.u < epsilon ∨ arm.count = 0 then d.delta
  else (arm.rewardSum / (arm.count : ℚ) - 1/2) * (1/10)

/-- A needs/wants/savings budget allocation triple. -/
structure BudgetAlloc where
  needs : ℚ
  wants : ℚ
  savings : ℚ
deriving DecidableEq, Repr

/-- First normalization of `_calculate_adaptive_allocation`
(`if total != 1.0: divide each by total`). -/
def firstNormalize (a : BudgetAlloc) : BudgetAlloc :=
  let total := a.needs + a.wants + a.savings
  if total ≠ 1 then
    { needs := a.needs / total, wants := a.wants / total, savings := a.savings / total }
  else a

/-- Spending-pattern adjustment (`high_needs_spender` shift with bounds). -/
def patternAdjust (highNeeds : Bool) (a : BudgetAlloc) : BudgetAlloc :=
  if highNeeds then
    { needs := min (a.needs + 5/100) (65/100)
      wants := max (a.wants - 3/100) (20/100)
      savings := max (a.savings - 2/100) (15/100) }
  else a

/-- Income-tier adjustment (`> 15_00_000` and `< 3_00_000` branches). -/
def incomeAdjust (income : ℚ) (a : BudgetAlloc) : BudgetAlloc :=
  if income > 1500000 then
    { needs := max (a.needs - 5/100) (40/100)
      wants := max (a.wants - 5/100) (25/100)
      savings := min (a.savings + 10/100) (40/100) }
  else if income < 300000 then
    { needs := min (a.needs + 10/100) (70/100)
      wants := max (a.wants - 5/100) (15/100)
      savings := max (a.savings - 5/100) (15/100) }
  else a

/-- Final normalization and 3-decimal rounding. -/
def finalNormalize (a : BudgetAlloc) : BudgetAlloc :=
  let total := a.needs + a.wants + a.savings
  { needs := pyRound3 (a.needs / total)
    wants := pyRound3 (a.wants / total)
    savings := pyRound3 (a.savings / total) }

/-- `_calculate_adaptive_allocation`: base 50/30/20 plus the per-arm
epsilon-greedy adjustments, first normalization, the two deterministic
adjustment passes, and the final rounded normalization.  The spending
analysis is `none` when `optimize_budget_with_bandit` was given no
expenses (Python passes `{}`, whose `patterns` lookup is falsy). -/
def calculateAdaptiveAllocation (st : BanditState) (draws : Draws) (income : ℚ)
    (analysis : Option SpendingAnalysis) : BudgetAlloc :=
  let epsilon := 1/10
  let a0 : BudgetAlloc :=
    { needs := 50/100 + armAdjustment st.needs draws.needs epsilon
      wants := 30/100 + armAdjustment st.wants draws.wants epsilon
      savings := 20/100 + armAdjustment st.savings draws.savings epsilon }
  let a1 := firstNormalize a0
  let highNeeds := match analysis with
    | some an => an.patterns.highNeedsSpender
    | none => false
  let a2 := patternAdjust highNeeds a1
  let a3 := incomeAdjust income a2
  finalNormalize a3

/-- `_calculate_budget_confidence`: data-volume and performance mix,
clamped to `[0.3, 0.95]`; `0.5` when no feedback has been seen. -/
def calculateBudgetConfidence (st : BanditState) : ℚ :=
  let totalCount := st.needs.count + st.wants.count + st.savings.count
  if totalCount = 0 then 1/2
  else
    let totalReward := st.needs.rewardSum + st.wants.rewardSum + st.savings.rewardSum
    let avgReward := totalReward / (totalCount : ℚ)
    let dataConfidence := min ((totalCount : ℚ) / 50) 1
    max (3/10) (min (95/100) (dataConfidence * (4/10) + avgReward * (6/10)))

/-- `optimize_budget_with_bandit` (the numeric core: allocation,
confidence and the updated bandit state; the generated reasoning and
recommendation strings are presentation-only and no claim mentions
them). -/
def optimizeBudgetWithBandit (st : BanditState) (income : ℚ)
    (expenses : List Expense) (feedback : Option Feedback) (draws : Draws) :
    BudgetAlloc × ℚ × BanditState :=
  let analysis := if expenses.isEmpty then none else some (analyzeSpendingPatterns expenses)
  let st1 := match feedback with
    | some f => updateBanditRewards st f
    | none => st
  let allocation := calculateAdaptiveAllocation st1 draws income analysis
  (allocation, calculateBudgetConfidence st1, st1)

/- ------------------------------------------------------------------
Financial Health Scorer (`calculate_financial_health_score`)
------------------------------------------------------------------ -/

/-- Result of `calculate_financial_health_score` (recommendation strings
derived from the factor scores are omitted; no claim refers to them). -/
structure HealthResult where
  totalScore : ℚ
  grade : String
  savingsRateScore : ℚ
  diversificationScore : ℚ
  emergencyFundScore : ℚ
  ageAllocationScore : ℚ
deriving DecidableEq, Repr

/-- `calculate_financial_health_score`.  The function divides
`profile.savings / profile.income` with no guard, so Python raises
`ZeroDivisionError` when `income == 0`; that exception is modelled as
`none` (no enclosing `try` exists in the function). -/
def calculateFinancialHealthScore (p : UserProfile) (expenses : List Expense) :
    Option HealthResult :=
  if p.income = 0 then none
  else
    let savingsRate := p.savings / p.income
    let savingsScore : ℚ :=
      if savingsRate ≥ 30/100 then 30
      else if savingsRate ≥ 20/100 then 25
      else if savingsRate ≥ 10/100 then 15
      else 5
    let diversificationScore : ℚ := min 20 ((p.risk_tolerance : ℚ) * 4)
    let emergencyFundScore : ℚ := if p.savings > p.income / 2 then 25 else 10
    let ageScore : ℚ := min 25 (max 5 (25 - |(p.age : ℚ) - 35| / 2))
    let totalScore := savingsScore + diversificationScore + emergencyFundScore + ageScore
    some
      { totalScore := min 100 totalScore
        grade :=
          if totalScore ≥ 80 then "A"
          else if totalScore ≥ 60 then "B"
          else if totalScore ≥ 40 then "C"
          else "D"
        savingsRateScore := savingsScore
        diversificationScore := diversificationScore
        emergencyFundScore := emergencyFundScore
        ageAllocationScore := ageScore }

/- ==================================================================
Theorems
================================================================== -/

theorem abs_roundHalfEven_sub_le (q : ℚ) : |(roundHalfEven q : ℚ) - q| ≤ 1/2 := by
  have h0 : (⌊q⌋ : ℚ) ≤ q := Int.floor_le q
  have h1 : q < (⌊q⌋ : ℚ) + 1 := Int.lt_floor_add_one q
  unfold roundHalfEven
  split_ifs with ha hb hc <;> rw [abs_le] <;> constructor <;> push_cast <;> linarith

theorem abs_pyRound3_sub_le (q : ℚ) : |pyRound3 q - q| ≤ 1/2000 := by
  have h := abs_roundHalfEven_sub_le (1000 * q)
  rw [abs_le] at h
  have e : pyRound3 q - q = ((roundHalfEven (1000 * q) : ℚ) - 1000 * q) / 1000 := by
    unfold pyRound3; ring
  rw [abs_le, e]
  constructor
  · rw [le_div_iff₀ (by norm_num : (0:ℚ) < 1000)]; linarith [h.1]
  · rw [div_le_iff₀ (by norm_num : (0:ℚ) < 1000)]; linarith [h.2]

theorem pyRound3_nonneg {q : ℚ} (h : 0 ≤ q) : 0 ≤ pyRound3 q := by
  have h0 : (0:ℤ) ≤ ⌊1000 * q⌋ := Int.floor_nonneg.mpr (by linarith)
  have h0q : (0:ℚ) ≤ (⌊1000 * q⌋ : ℚ) := by exact_mod_cast h0
  unfold pyRound3 roundHalfEven
  split_ifs <;> positivity

theorem pyRound3_le {q b : ℚ} (h : q ≤ b) : pyRound3 q ≤ b + 1/2000 := by
  have h1 := abs_pyRound3_sub_le q
  rw [abs_le] at h1
  linarith [h1.1, h1.2]

theorem pyRound3_ge {q b : ℚ} (h : b ≤ q) : b - 1/2000 ≤ pyRound3 q := by
  have h1 := abs_pyRound3_sub_le q
  rw [abs_le] at h1
  linarith [h1.1, h1.2]

/-- C6: the base equity glidepath equals `clamp(0.15, 0.85, (110-age)/100)`
for every age, and over ages 18..100 (other profile fields held fixed,
which they are: `baseEquityPct` reads only the age) it is monotonically
non-increasing. -/
theorem glidepath_clamp_monotone :
    (∀ age : ℤ, baseEquityPct age = clampQ (15/100) (85/100) ((110 - (age:ℚ)) / 100)) ∧
    (∀ a1 a2 : ℤ, 18 ≤ a1 → a1 ≤ a2 → a2 ≤ 100 →
      baseEquityPct a2 ≤ baseEquityPct a1) := by
  constructor
  · intro age; rfl
  · intro a1 a2 _ h12 _
    have hc : (a1:ℚ) ≤ (a2:ℚ) := by exact_mod_cast h12
    have hd : ((110 - (a2:ℚ)) / 100) ≤ ((110 - (a1:ℚ)) / 100) := by linarith
    exact min_le_min le_rfl (max_le_max le_rfl hd)

/-- Witness for C6 at ages 30 and 40. -/
theorem glidepath_clamp_monotone_witness :
    baseEquityPct 30 = clampQ (15/100) (85/100) ((110 - (30:ℚ)) / 100) ∧
    baseEquityPct 40 ≤ baseEquityPct 30 :=
  ⟨glidepath_clamp_monotone.1 30,
   glidepath_clamp_monotone.2 30 40 (by decide) (by decide) (by decide)⟩

theorem calculateEnhancedAllocation_keys (e rm : ℚ) :
    (calculateEnhancedAllocation e rm).map Prod.fst =
      ["large_cap_equity", "mid_small_cap_equity", "international_equity",
       "government_bonds", "corporate_bonds", "gold", "cash_equivalents"] := by
  unfold calculateEnhancedAllocation
  rw [apply_ite (List.map Prod.fst)]
  simp

theorem persona_allocation_keys (pid : Fin 5) (p : UserProfile) :
    (getUserPersona pid p).allocation.map Prod.fst =
      ["large_cap_equity", "mid_small_cap_equity", "international_equity",
       "government_bonds", "corporate_bonds", "gold", "cash_equivalents"] :=
  calculateEnhancedAllocation_keys _ _

theorem persona_allocation_ne_default (pid : Fin 5) (p : UserProfile) :
    (getUserPersona pid p).allocation ≠ safeDefaultAllocation := by
  intro hEq
  have h := persona_allocation_keys pid p
  rw [hEq] at h
  simp [safeDefaultAllocation] at h

/-- C1 counterexample: for the profile with the invalid (negative) age -5,
the classifier does not return the safe default balanced allocation under
any of the five possible persona assignments — no arithmetic step of
`get_user_persona` raises on a finite numeric profile, so the computed
(7-asset) allocation is returned instead of the `except`-branch default. -/
theorem persona_invalid_age_counterexample :
    invalidAgeProfile.age < 0 ∧
    (getUserPersona 0 invalidAgeProfile).allocation ≠ safeDefaultAllocation ∧
    (getUserPersona 1 invalidAgeProfile).allocation ≠ safeDefaultAllocation ∧
    (getUserPersona 2 invalidAgeProfile).allocation ≠ safeDefaultAllocation ∧
    (getUserPersona 3 invalidAgeProfile).allocation ≠ safeDefaultAllocation ∧
    (getUserPersona 4 invalidAgeProfile).allocation ≠ safeDefaultAllocation :=
  ⟨by decide,
   persona_allocation_ne_default 0 invalidAgeProfile,
   persona_allocation_ne_default 1 invalidAgeProfile,
   persona_allocation_ne_default 2 invalidAgeProfile,
   persona_allocation_ne_default 3 invalidAgeProfile,
   persona_allocation_ne_default 4 invalidAgeProfile⟩

/-- C1 (amended): `get_user_persona` performs no input validation; for
every profile — valid or invalid — and every persona the clusterer may
assign, it returns the computed seven-asset allocation (whose keys are the
seven asset classes), never the four-asset safe default, which only the
unreachable exception handler produces. -/
theorem persona_allocation_never_default (pid : Fin 5) (p : UserProfile) :
    ((getUserPersona pid p).allocation.map Prod.fst =
      ["large_cap_equity", "mid_small_cap_equity", "international_equity",
       "government_bonds", "corporate_bonds", "gold", "cash_equivalents"]) ∧
    (getUserPersona pid p).allocation ≠ safeDefaultAllocation :=
  ⟨persona_allocation_keys pid p, persona_allocation_ne_default pid p⟩

/-- C4: the health scorer is not total on its documented domain — at
`income = 0` (documented range: income ≥ 0) the unguarded division
`profile.savings / profile.income` raises `ZeroDivisionError`, so the
request fails with an exception instead of a structured result. -/
theorem health_score_zero_income_raises :
    calculateFinancialHealthScore
      { age := 35, income := 0, savings := 0, dependents := 0, risk_tolerance := 3 } [] =
      none := by
  decide

/-- C8: when the external retriever returns zero candidate documents,
`rag_query` returns confidence exactly 0.1 and an empty source list
(for every query, threshold and timing oracle). -/
theorem rag_empty_retrieval (genAnswer : String → List RetrievedDoc → String)
    (procTime : ℚ) (procTimeStr : String) (query : String) (threshold : ℚ) :
    (ragQuery genAnswer procTime procTimeStr query [] threshold).confidence = 1/10 ∧
    (ragQuery genAnswer procTime procTimeStr query [] threshold).sources = [] := by
  constructor <;> rfl

theorem lookupOr_self {X : List (String × ℚ)} (hk : (X.map Prod.fst).Nodup)
    {p : String × ℚ} (hmem : p ∈ X) : lookupOr X p.1 0 = p.2 := by
  induction X with
  | nil => cases hmem
  | cons hd tl ih =>
    rw [List.map_cons, List.nodup_cons] at hk
    rcases List.mem_cons.mp hmem with heq | htl
    · subst heq
      unfold lookupOr
      rw [List.find?_cons_of_pos _ (by simp)]
    · by_cases hfst : hd.1 = p.1
      · exact absurd (hfst ▸ List.mem_map_of_mem Prod.fst htl) hk.1
      · unfold lookupOr
        rw [List.find?_cons_of_neg _ (by simpa using hfst)]
        exact ih hk.2 htl

theorem foldl_rebalanceStep_self {X : List (String × ℚ)} {threshold : ℚ}
    (ht : 0 < threshold) (l : List (String × ℚ))
    (hl : ∀ p ∈ l, lookupOr X p.1 0 = p.2) :
    l.foldl (rebalanceStep X threshold) ([], 0) = ([], 0) := by
  induction l with
  | nil => rfl
  | cons hd tl ih =>
    have hhd : lookupOr X hd.1 0 = hd.2 := hl hd (List.mem_cons_self hd tl)
    have hstep : rebalanceStep X threshold ([], 0) hd = ([], 0) := by
      simp only [rebalanceStep, hhd, sub_self, abs_zero, zero_div, ite_self, gt_iff_lt]
      rw [if_neg (not_lt.mpr ht.le)]
    rw [List.foldl_cons, hstep]
    exact ih (fun p hp => hl p (List.mem_cons_of_mem hd hp))

/-- C9: for every allocation `X` (unique keys, as in a Python dict) and
every threshold `t > 0`, `check_rebalancing_needed(X, X, t)` reports no
rebalancing and an empty action list.  The call is pure by construction
of the embedding, matching the source, which only reads its arguments
and the engine state. -/
theorem check_rebalancing_no_drift (X : List (String × ℚ))
    (hk : (X.map Prod.fst).Nodup) (threshold : ℚ) (ht : 0 < threshold) :
    (checkRebalancingNeeded X X threshold).rebalancingNeeded = false ∧
    (checkRebalancingNeeded X X threshold).actionsRequired = [] := by
  have hfold : X.foldl (rebalanceStep X threshold) ([], 0) = ([], 0) :=
    foldl_rebalanceStep_self ht X (fun p hp => lookupOr_self hk hp)
  unfold checkRebalancingNeeded
  rw [hfold]
  exact ⟨rfl, rfl⟩

/-- Witness for C9 at the allocation `{equity: 0.6, debt: 0.3, cash: 0.1}`
and threshold 0.05. -/
theorem check_rebalancing_no_drift_witness :
    (checkRebalancingNeeded [("equity", 6/10), ("debt", 3/10), ("cash", 1/10)]
        [("equity", 6/10), ("debt", 3/10), ("cash", 1/10)] (5/100)).rebalancingNeeded = false ∧
    (checkRebalancingNeeded [("equity", 6/10), ("debt", 3/10), ("cash", 1/10)]
        [("equity", 6/10), ("debt", 3/10), ("cash", 1/10)] (5/100)).actionsRequired = [] :=
  check_rebalancing_no_drift [("equity", 6/10), ("debt", 3/10), ("cash", 1/10)]
    (by simp) (5/100) (by norm_num)

/-- C7: similarity filtering is monotone in the threshold — for the same
retrieval result, raising the threshold never increases the surviving
document count. -/
theorem similarity_filter_monotone (docs : List RetrievedDoc) (t1 t2 : ℚ) (h : t1 ≤ t2) :
    (filterBySimilarity docs t2).length ≤ (filterBySimilarity docs t1).length := by
  apply List.Sublist.length_le
  apply List.monotone_filter_right
  intro d hd
  simp only [decide_eq_true_eq] at hd ⊢
  linarith

/-- Witness for C7 at thresholds 0.5 and 0.9 on a one-document retrieval. -/
theorem similarity_filter_monotone_witness :
    (filterBySimilarity [sampleDoc] (9/10)).length ≤
      (filterBySimilarity [sampleDoc] (1/2)).length :=
  similarity_filter_monotone [sampleDoc] (1/2) (9/10) (by norm_num)

/-- C5 counterexample: on the synthesized-answer path with a sub-0.5s
measured elapsed time, `rag_query` appends the string
`"Processed in 0.10s"` to the sources list, so the sources are not
exactly the deduplicated source names of the surviving documents. -/
theorem rag_sources_marker_counterexample :
    (ragQuery (fun _ _ => "") (1/10) "0.10" "emergency fund" [sampleDoc] (7/10)).sources =
      ["RBI", "Processed in 0.10s"] ∧
    "Processed in 0.10s" ∉ ([sampleDoc].map (fun d => d.meta.source)) ∧
    (ragQuery (fun _ _ => "") (1/10) "0.10" "emergency fund" [sampleDoc] (7/10)).sources ≠
      pySetList ((filterBySimilarity [sampleDoc] (7/10)).map (fun d => d.meta.source)) := by
  refine ⟨?_, by simp [sampleDoc], ?_⟩
  · norm_num [ragQuery, filterBySimilarity, similarityOf, sampleDoc, List.filter,
      overallConfidence, confidenceScores, pySetList, List.dedup]
    rfl
  · norm_num [ragQuery, filterBySimilarity, similarityOf, sampleDoc, List.filter,
      overallConfidence, confidenceScores, pySetList, List.dedup]

/-- C5 (amended): on the synthesized-answer path (non-empty retrieval,
non-empty filter survivors, overall confidence at least 0.6), the sources
field is the deduplicated list of the surviving documents' source names,
followed by one `"Processed in ..s"` timing marker exactly when the
measured elapsed time is below 0.5 seconds. -/
theorem rag_sources_synthesized (genAnswer : String → List RetrievedDoc → String)
    (procTime : ℚ) (procTimeStr : String) (query : String) (docs : List RetrievedDoc)
    (threshold : ℚ)
    (h1 : docs.isEmpty = false)
    (h2 : (filterBySimilarity docs threshold).isEmpty = false)
    (h3 : ¬ overallConfidence docs threshold < 6/10) :
    (ragQuery genAnswer procTime procTimeStr query docs threshold).sources =
      pySetList ((filterBySimilarity docs threshold).map (fun d => d.meta.source)) ++
        (if procTime < 1/2 then ["Processed in " ++ procTimeStr ++ "s"] else []) := by
  unfold ragQuery
  rw [if_neg (by simp [h1]), if_neg (by simp [h2]), if_neg h3]
  split_ifs with hp <;> simp

/-- Witness for C5 (amended) on the one-document retrieval with elapsed
time 0.1s. -/
theorem rag_sources_synthesized_witness :
    (ragQuery (fun _ _ => "") (1/10) "0.10" "emergency fund" [sampleDoc] (7/10)).sources =
      pySetList ((filterBySimilarity [sampleDoc] (7/10)).map (fun d => d.meta.source)) ++
        (if (1:ℚ)/10 < 1/2 then ["Processed in " ++ "0.10" ++ "s"] else []) :=
  rag_sources_synthesized (fun _ _ => "") (1/10) "0.10" "emergency fund" [sampleDoc] (7/10)
    (by simp)
    (by norm_num [filterBySimilarity, similarityOf, sampleDoc, List.filter])
    (by norm_num [overallConfidence, confidenceScores, filterBySimilarity,
      similarityOf, sampleDoc, List.filter, pySetList, List.dedup])

theorem updateArm_agree {a1 a2 : BanditArm} (h1 : a1.rewardSum = a2.rewardSum)
    (h2 : a1.count = a2.count) (s : ℚ) (su : Bool) :
    (updateArm a1 s su).rewardSum = (updateArm a2 s su).rewardSum ∧
    (updateArm a1 s su).count = (updateArm a2 s su).count := by
  unfold updateArm
  simp [h1, h2]

theorem updateBanditRewards_agree {st1 st2 : BanditState} (h : armsAgree st1 st2)
    (f : Feedback) : armsAgree (updateBanditRewards st1 f) (updateBanditRewards st2 f) := by
  obtain ⟨hn1, hn2, hw1, hw2, hs1, hs2⟩ := h
  unfold updateBanditRewards armsAgree
  split_ifs <;>
    refine ⟨?_, ?_, ?_, ?_, ?_, ?_⟩ <;>
      first
        | assumption
        | exact (updateArm_agree hn1 hn2 _ _).1
        | exact (updateArm_agree hn1 hn2 _ _).2
        | exact (updateArm_agree hw1 hw2 _ _).1
        | exact (updateArm_agree hw1 hw2 _ _).2
        | exact (updateArm_agree hs1 hs2 _ _).1
        | exact (updateArm_agree hs1 hs2 _ _).2

theorem calculateAdaptiveAllocation_agree {st1 st2 : BanditState} (h : armsAgree st1 st2)
    (draws : Draws) (income : ℚ) (analysis : Option SpendingAnalysis) :
    calculateAdaptiveAllocation st1 draws income analysis =
      calculateAdaptiveAllocation st2 draws income analysis := by
  obtain ⟨hn1, hn2, hw1, hw2, hs1, hs2⟩ := h
  unfold calculateAdaptiveAllocation armAdjustment
  rw [hn1, hn2, hw1, hw2, hs1, hs2]

/-- C10: the budget optimizer's output allocation does not depend on the
arms' `base_allocation` values — two runs with the same income, expenses,
feedback and random draws, whose bandit states agree on every
`reward_sum` and `count` but differ arbitrarily in `base_allocation`,
return the identical allocation. -/
theorem budget_allocation_independent_of_base (st1 st2 : BanditState)
    (h : armsAgree st1 st2) (income : ℚ) (expenses : List Expense)
    (feedback : Option Feedback) (draws : Draws) :
    (optimizeBudgetWithBandit st1 income expenses feedback draws).1 =
      (optimizeBudgetWithBandit st2 income expenses feedback draws).1 := by
  unfold optimizeBudgetWithBandit
  cases feedback with
  | none => exact calculateAdaptiveAllocation_agree h draws income _
  | some f =>
      exact calculateAdaptiveAllocation_agree (updateBanditRewards_agree h f) draws income _

/-- Witness for C10: fresh state vs the same state with all
`base_allocation` set to 0.77. -/
theorem budget_allocation_independent_of_base_witness :
    (optimizeBudgetWithBandit initialBandits 100000 [] none
        ⟨⟨1/2, 0⟩, ⟨1/2, 0⟩, ⟨1/2, 0⟩⟩).1 =
      (optimizeBudgetWithBandit skewedBandits 100000 [] none
        ⟨⟨1/2, 0⟩, ⟨1/2, 0⟩, ⟨1/2, 0⟩⟩).1 :=
  budget_allocation_independent_of_base initialBandits skewedBandits
    ⟨rfl, rfl, rfl, rfl, rfl, rfl⟩ 100000 [] none ⟨⟨1/2, 0⟩, ⟨1/2, 0⟩, ⟨1/2, 0⟩⟩

theorem armAdjustment_bounds (arm : BanditArm) (d : Draw)
    (hd1 : -1/20 ≤ d.delta) (hd2 : d.delta ≤ 1/20) (hs : armSound arm) :
    -1/20 ≤ armAdjustment arm d (1/10) ∧ armAdjustment arm d (1/10) ≤ 1/20 := by
  obtain ⟨hs1, hs2⟩ := hs
  unfold armAdjustment
  split_ifs with h
  · exact ⟨hd1, hd2⟩
  · push_neg at h
    have hc : arm.count ≠ 0 := h.2
    have hc1 : (1:ℚ) ≤ (arm.count : ℚ) := by exact_mod_cast Nat.one_le_iff_ne_zero.mpr hc
    have hcpos : (0:ℚ) < (arm.count : ℚ) := by linarith
    have havg0 : 0 ≤ arm.rewardSum / (arm.count : ℚ) := div_nonneg hs1 hcpos.le
    have havg1 : arm.rewardSum / (arm.count : ℚ) ≤ 1 := by
      rw [div_le_one hcpos]; exact hs2
    constructor <;> nlinarith

theorem updateArm_sound {arm : BanditArm} (hs : armSound arm) {s : ℚ}
    (h1 : 1 ≤ s) (h2 : s ≤ 5) (su : Bool) : armSound (updateArm arm s su) := by
  obtain ⟨ha, hb⟩ := hs
  have hr1 : (0:ℚ) ≤ (if su then (s - 1) / 4 else 0) := by
    split_ifs <;> linarith
  have hr2 : (if su then (s - 1) / 4 else 0) ≤ 1 := by
    split_ifs <;> linarith
  unfold updateArm armSound
  refine ⟨by linarith, ?_⟩
  push_cast
  linarith

theorem updateBanditRewards_sound {st : BanditState}
    (hs : armSound st.needs ∧ armSound st.wants ∧ armSound st.savings)
    {f : Feedback} (hf : validFeedback f) :
    armSound (updateBanditRewards st f).needs ∧
    armSound (updateBanditRewards st f).wants ∧
    armSound (updateBanditRewards st f).savings := by
  obtain ⟨h1, h2, h3⟩ := hs
  unfold updateBanditRewards
  split_ifs with hc1 hc2 hc3
  · exact ⟨updateArm_sound h1 hf.1 hf.2 _, h2, h3⟩
  · exact ⟨h1, updateArm_sound h2 hf.1 hf.2 _, h3⟩
  · exact ⟨h1, h2, updateArm_sound h3 hf.1 hf.2 _⟩
  · exact ⟨h1, h2, h3⟩

theorem foldl_bandit_sound (history : List Feedback)
    (hh : ∀ f ∈ history, validFeedback f) (st : BanditState)
    (hst : armSound st.needs ∧ armSound st.wants ∧ armSound st.savings) :
    armSound (history.foldl updateBanditRewards st).needs ∧
    armSound (history.foldl updateBanditRewards st).wants ∧
    armSound (history.foldl updateBanditRewards st).savings := by
  induction history generalizing st with
  | nil => exact hst
  | cons f t ih =>
    rw [List.foldl_cons]
    exact ih (fun g hg => hh g (List.mem_cons_of_mem f hg)) _
      (updateBanditRewards_sound hst (hh f (List.mem_cons_self f t)))

theorem firstNormalize_bounds (a : BudgetAlloc)
    (hn1 : 9/20 ≤ a.needs) (hn2 : a.needs ≤ 11/20)
    (hw1 : 1/4 ≤ a.wants) (hw2 : a.wants ≤ 7/20)
    (hs1 : 3/20 ≤ a.savings) (hs2 : a.savings ≤ 1/4) :
    (firstNormalize a).needs + (firstNormalize a).wants + (firstNormalize a).savings = 1 ∧
    9/23 ≤ (firstNormalize a).needs ∧ (firstNormalize a).needs ≤ 11/17 ∧
    5/23 ≤ (firstNormalize a).wants ∧ (firstNormalize a).wants ≤ 7/17 ∧
    3/23 ≤ (firstNormalize a).savings ∧ (firstNormalize a).savings ≤ 5/17 := by
  have ht1 : 17/20 ≤ a.needs + a.wants + a.savings := by linarith
  have ht2 : a.needs + a.wants + a.savings ≤ 23/20 := by linarith
  have htpos : 0 < a.needs + a.wants + a.savings := by linarith
  have hne : a.needs + a.wants + a.savings ≠ 0 := ne_of_gt htpos
  unfold firstNormalize
  dsimp only
  split_ifs with h
  · dsimp only
    refine ⟨?_, ?_, ?_, ?_, ?_, ?_, ?_⟩
    · rw [div_add_div_same, div_add_div_same, div_eq_one_iff_eq hne]
    · rw [le_div_iff₀ htpos]; nlinarith
    · rw [div_le_iff₀ htpos]; nlinarith
    · rw [le_div_iff₀ htpos]; nlinarith
    · rw [div_le_iff₀ htpos]; nlinarith
    · rw [le_div_iff₀ htpos]; nlinarith
    · rw [div_le_iff₀ htpos]; nlinarith
  · push_neg at h
    refine ⟨h, by linarith, by linarith, by linarith, by linarith, by linarith, by linarith⟩

theorem pyRound3_ge_tenth {y : ℚ} (h : 201/2000 ≤ y) : 1/10 ≤ pyRound3 y := by
  have hr := abs_roundHalfEven_sub_le (1000 * y)
  rw [abs_le] at hr
  have hn : (100:ℚ) ≤ (roundHalfEven (1000 * y) : ℚ) := by linarith [hr.1]
  unfold pyRound3
  rw [le_div_iff₀ (by norm_num : (0:ℚ) < 1000)]
  linarith

theorem pyRound3_triple_sum (y1 y2 y3 : ℚ) (hsum : y1 + y2 + y3 = 1) :
    |pyRound3 y1 + pyRound3 y2 + pyRound3 y3 - 1| ≤ 1/1000 := by
  have h1 := abs_roundHalfEven_sub_le (1000 * y1)
  have h2 := abs_roundHalfEven_sub_le (1000 * y2)
  have h3 := abs_roundHalfEven_sub_le (1000 * y3)
  rw [abs_le] at h1 h2 h3
  set n1 := roundHalfEven (1000 * y1) with hn1
  set n2 := roundHalfEven (1000 * y2) with hn2
  set n3 := roundHalfEven (1000 * y3) with hn3
  have hNq : |((n1 + n2 + n3 - 1000 : ℤ) : ℚ)| ≤ 3/2 := by
    rw [abs_le]
    push_cast
    constructor <;> nlinarith [h1.1, h1.2, h2.1, h2.2, h3.1, h3.2]
  have hNz : |(n1 + n2 + n3 - 1000 : ℤ)| ≤ 1 := by
    by_contra hcon
    push_neg at hcon
    have h2le : (2:ℤ) ≤ |n1 + n2 + n3 - 1000| := hcon
    have : (2:ℚ) ≤ |((n1 + n2 + n3 - 1000 : ℤ) : ℚ)| := by
      rw [← Int.cast_abs]
      exact_mod_cast h2le
    linarith
  have hNq1 : |((n1 + n2 + n3 - 1000 : ℤ) : ℚ)| ≤ 1 := by
    rw [← Int.cast_abs]
    exact_mod_cast hNz
  have heq : pyRound3 y1 + pyRound3 y2 + pyRound3 y3 - 1 =
      ((n1 + n2 + n3 - 1000 : ℤ) : ℚ) / 1000 := by
    unfold pyRound3
    rw [← hn1, ← hn2, ← hn3]
    push_cast
    ring
  rw [heq, abs_div, abs_of_pos (by norm_num : (0:ℚ) < 1000),
    div_le_iff₀ (by norm_num : (0:ℚ) < 1000)]
  linarith

theorem finalNormalize_props (c : BudgetAlloc)
    (hT : 0 < c.needs + c.wants + c.savings)
    (hn : 201/2000 * (c.needs + c.wants + c.savings) ≤ c.needs)
    (hw : 201/2000 * (c.needs + c.wants + c.savings) ≤ c.wants)
    (hs : 201/2000 * (c.needs + c.wants + c.savings) ≤ c.savings) :
    |(finalNormalize c).needs + (finalNormalize c).wants + (finalNormalize c).savings - 1|
      ≤ 1/1000 ∧
    1/10 ≤ (finalNormalize c).needs ∧ 1/10 ≤ (finalNormalize c).wants ∧
    1/10 ≤ (finalNormalize c).savings := by
  have hne : c.needs + c.wants + c.savings ≠ 0 := ne_of_gt hT
  have hyn : 201/2000 ≤ c.needs / (c.needs + c.wants + c.savings) := by
    rw [le_div_iff₀ hT]; linarith
  have hyw : 201/2000 ≤ c.wants / (c.needs + c.wants + c.savings) := by
    rw [le_div_iff₀ hT]; linarith
  have hys : 201/2000 ≤ c.savings / (c.needs + c.wants + c.savings) := by
    rw [le_div_iff₀ hT]; linarith
  have hysum : c.needs / (c.needs + c.wants + c.savings) +
      c.wants / (c.needs + c.wants + c.savings) +
      c.savings / (c.needs + c.wants + c.savings) = 1 := by
    field_simp
  unfold finalNormalize
  dsimp only
  exact ⟨pyRound3_triple_sum _ _ _ hysum,
    pyRound3_ge_tenth hyn, pyRound3_ge_tenth hyw, pyRound3_ge_tenth hys⟩

theorem adjusted_bounds (hnb : Bool) (income : ℚ) (b : BudgetAlloc)
    (hsum : b.needs + b.wants + b.savings = 1)
    (hnl : 9/23 ≤ b.needs) (hnu : b.needs ≤ 11/17)
    (hwl : 5/23 ≤ b.wants) (hwu : b.wants ≤ 7/17)
    (hsl : 3/23 ≤ b.savings) (hsu : b.savings ≤ 5/17) :
    0 < (incomeAdjust income (patternAdjust hnb b)).needs +
        (incomeAdjust income (patternAdjust hnb b)).wants +
        (incomeAdjust income (patternAdjust hnb b)).savings ∧
    201/2000 * ((incomeAdjust income (patternAdjust hnb b)).needs +
        (incomeAdjust income (patternAdjust hnb b)).wants +
        (incomeAdjust income (patternAdjust hnb b)).savings) ≤
      (incomeAdjust income (patternAdjust hnb b)).needs ∧
    201/2000 * ((incomeAdjust income (patternAdjust hnb b)).needs +
        (incomeAdjust income (patternAdjust hnb b)).wants +
        (incomeAdjust income (patternAdjust hnb b)).savings) ≤
      (incomeAdjust income (patternAdjust hnb b)).wants ∧
    201/2000 * ((incomeAdjust income (patternAdjust hnb b)).needs +
        (incomeAdjust income (patternAdjust hnb b)).wants +
        (incomeAdjust income (patternAdjust hnb b)).savings) ≤
      (incomeAdjust income (patternAdjust hnb b)).savings := by
  unfold incomeAdjust patternAdjust
  split_ifs with ha hb hc hd he <;> (try dsimp only)
  · -- high income, high-needs spender
    have hAl : (40:ℚ)/100 ≤ max (min (b.needs + 5/100) (65/100) - 5/100) (40/100) :=
      le_max_right _ _
    have hAu : max (min (b.needs + 5/100) (65/100) - 5/100) (40/100) ≤ 3/5 := by
      have h1 : min (b.needs + 5/100) (65/100) ≤ (65:ℚ)/100 := min_le_right _ _
      exact max_le (by linarith) (by norm_num)
    have hBl : (25:ℚ)/100 ≤ max (max (b.wants - 3/100) (20/100) - 5/100) (25/100) :=
      le_max_right _ _
    have hBu : max (max (b.wants - 3/100) (20/100) - 5/100) (25/100) ≤ 7/17 := by
      have h1 : max (b.wants - 3/100) (20/100) ≤ 7/17 :=
        max_le (by linarith) (by norm_num)
      exact max_le (by linarith) (by norm_num)
    have hCl : (1:ℚ)/4 ≤ min (max (b.savings - 2/100) (15/100) + 10/100) (40/100) := by
      have h1 : (15:ℚ)/100 ≤ max (b.savings - 2/100) (15/100) := le_max_right _ _
      exact le_min (by linarith) (by norm_num)
    have hCu : min (max (b.savings - 2/100) (15/100) + 10/100) (40/100) ≤ (40:ℚ)/100 :=
      min_le_right _ _
    exact ⟨by linarith, by linarith, by linarith, by linarith⟩
  · -- high income, no pattern flag
    have hAl : (40:ℚ)/100 ≤ max (b.needs - 5/100) (40/100) := le_max_right _ _
    have hAu : max (b.needs - 5/100) (40/100) ≤ 11/17 :=
      max_le (by linarith) (by norm_num)
    have hBl : (25:ℚ)/100 ≤ max (b.wants - 5/100) (25/100) := le_max_right _ _
    have hBu : max (b.wants - 5/100) (25/100) ≤ 7/17 :=
      max_le (by linarith) (by norm_num)
    have hCl : (3:ℚ)/23 + 1/10 ≤ min (b.savings + 10/100) (40/100) :=
      le_min (by linarith) (by norm_num)
    have hCu : min (b.savings + 10/100) (40/100) ≤ (40:ℚ)/100 := min_le_right _ _
    exact ⟨by linarith, by linarith, by linarith, by linarith⟩
  · -- low income, high-needs spender
    have hAl : (249:ℚ)/460 ≤ min (min (b.needs + 5/100) (65/100) + 10/100) (70/100) := by
      have h1 : (203:ℚ)/460 ≤ min (b.needs + 5/100) (65/100) :=
        le_min (by linarith) (by norm_num)
      exact le_min (by linarith) (by norm_num)
    have hAu : min (min (b.needs + 5/100) (65/100) + 10/100) (70/100) ≤ (70:ℚ)/100 :=
      min_le_right _ _
    have hBl : (15:ℚ)/100 ≤ max (max (b.wants - 3/100) (20/100) - 5/100) (15/100) :=
      le_max_right _ _
    have hBu : max (max (b.wants - 3/100) (20/100) - 5/100) (15/100) ≤ 7/17 := by
      have h1 : max (b.wants - 3/100) (20/100) ≤ 7/17 :=
        max_le (by linarith) (by norm_num)
      exact max_le (by linarith) (by norm_num)
    have hCl : (15:ℚ)/100 ≤ max (max (b.savings - 2/100) (15/100) - 5/100) (15/100) :=
      le_max_right _ _
    have hCu : max (max (b.savings - 2/100) (15/100) - 5/100) (15/100) ≤ 5/17 := by
      have h1 : max (b.savings - 2/100) (15/100) ≤ 5/17 :=
        max_le (by linarith) (by norm_num)
      exact max_le (by linarith) (by norm_num)
    exact ⟨by linarith, by linarith, by linarith, by linarith⟩
  · -- low income, no pattern flag
    have hAl : (113:ℚ)/230 ≤ min (b.needs + 10/100) (70/100) :=
      le_min (by linarith) (by norm_num)
    have hAu : min (b.needs + 10/100) (70/100) ≤ (70:ℚ)/100 := min_le_right _ _
    have hBl : (15:ℚ)/100 ≤ max (b.wants - 5/100) (15/100) := le_max_right _ _
    have hBu : max (b.wants - 5/100) (15/100) ≤ 7/17 :=
      max_le (by linarith) (by norm_num)
    have hCl : (15:ℚ)/100 ≤ max (b.savings - 5/100) (15/100) := le_max_right _ _
    have hCu : max (b.savings - 5/100) (15/100) ≤ 5/17 :=
      max_le (by linarith) (by norm_num)
    exact ⟨by linarith, by linarith, by linarith, by linarith⟩
  · -- mid income, high-needs spender
    have hAl : (203:ℚ)/460 ≤ min (b.needs + 5/100) (65/100) :=
      le_min (by linarith) (by norm_num)
    have hAu : min (b.needs + 5/100) (65/100) ≤ (65:ℚ)/100 := min_le_right _ _
    have hBl : (20:ℚ)/100 ≤ max (b.wants - 3/100) (20/100) := le_max_right _ _
    have hBu : max (b.wants - 3/100) (20/100) ≤ 7/17 :=
      max_le (by linarith) (by norm_num)
    have hCl : (15:ℚ)/100 ≤ max (b.savings - 2/100) (15/100) := le_max_right _ _
    have hCu : max (b.savings - 2/100) (15/100) ≤ 5/17 :=
      max_le (by linarith) (by norm_num)
    exact ⟨by linarith, by linarith, by linarith, by linarith⟩
  · -- mid income, no pattern flag
    exact ⟨by linarith, by linarith, by linarith, by linarith⟩

theorem calculateAdaptiveAllocation_invariant (st : BanditState) (draws : Draws)
    (income : ℚ) (analysis : Option SpendingAnalysis)
    (hs1 : armSound st.needs) (hs2 : armSound st.wants) (hs3 : armSound st.savings)
    (hd1 : -1/20 ≤ draws.needs.delta) (hd2 : draws.needs.delta ≤ 1/20)
    (hd3 : -1/20 ≤ draws.wants.delta) (hd4 : draws.wants.delta ≤ 1/20)
    (hd5 : -1/20 ≤ draws.savings.delta) (hd6 : draws.savings.delta ≤ 1/20) :
    |(calculateAdaptiveAllocation st draws income analysis).needs +
      (calculateAdaptiveAllocation st draws income analysis).wants +
      (calculateAdaptiveAllocation st draws income analysis).savings - 1| ≤ 1/1000 ∧
    1/10 ≤ (calculateAdaptiveAllocation st draws income analysis).needs ∧
    1/10 ≤ (calculateAdaptiveAllocation st draws income analysis).wants ∧
    1/10 ≤ (calculateAdaptiveAllocation st draws income analysis).savings := by
  obtain ⟨han1, han2⟩ := armAdjustment_bounds st.needs draws.needs hd1 hd2 hs1
  obtain ⟨haw1, haw2⟩ := armAdjustment_bounds st.wants draws.wants hd3 hd4 hs2
  obtain ⟨has1, has2⟩ := armAdjustment_bounds st.savings draws.savings hd5 hd6 hs3
  obtain ⟨Hsum, Hnl, Hnu, Hwl, Hwu, Hsl, Hsu⟩ := firstNormalize_bounds
    { needs := 50/100 + armAdjustment st.needs draws.needs (1/10)
      wants := 30/100 + armAdjustment st.wants draws.wants (1/10)
      savings := 20/100 + armAdjustment st.savings draws.savings (1/10) }
    (by dsimp only; linarith) (by dsimp only; linarith) (by dsimp only; linarith)
    (by dsimp only; linarith) (by dsimp only; linarith) (by dsimp only; linarith)
  obtain ⟨HT, HN, HW, HS⟩ := adjusted_bounds
    (match analysis with | some an => an.patterns.highNeedsSpender | none => false)
    income
    (firstNormalize
      { needs := 50/100 + armAdjustment st.needs draws.needs (1/10)
        wants := 30/100 + armAdjustment st.wants draws.wants (1/10)
        savings := 20/100 + armAdjustment st.savings draws.savings (1/10) })
    Hsum Hnl Hnu Hwl Hwu Hsl Hsu
  exact finalNormalize_props _ HT HN HW HS

/-- C3: for every income, expense history, feedback history of the
documented shape (satisfaction 1-5), in-range current feedback, and
every outcome of the random exploration draws (perturbations in
`[-0.05, 0.05]`), the allocation returned by `optimize_budget_with_bandit`
sums to 1 within 1e-3 and each of needs/wants/savings is at least 0.10. -/
theorem optimize_budget_invariant
    (history : List Feedback) (hh : ∀ f ∈ history, validFeedback f)
    (income : ℚ) (expenses : List Expense)
    (feedback : Option Feedback) (hfb : ∀ f, feedback = some f → validFeedback f)
    (draws : Draws)
    (hd1 : -1/20 ≤ draws.needs.delta) (hd2 : draws.needs.delta ≤ 1/20)
    (hd3 : -1/20 ≤ draws.wants.delta) (hd4 : draws.wants.delta ≤ 1/20)
    (hd5 : -1/20 ≤ draws.savings.delta) (hd6 : draws.savings.delta ≤ 1/20) :
    |(optimizeBudgetWithBandit (history.foldl updateBanditRewards initialBandits)
        income expenses feedback draws).1.needs +
      (optimizeBudgetWithBandit (history.foldl updateBanditRewards initialBandits)
        income expenses feedback draws).1.wants +
      (optimizeBudgetWithBandit (history.foldl updateBanditRewards initialBandits)
        income expenses feedback draws).1.savings - 1| ≤ 1/1000 ∧
    1/10 ≤ (optimizeBudgetWithBandit (history.foldl updateBanditRewards initialBandits)
        income expenses feedback draws).1.needs ∧
    1/10 ≤ (optimizeBudgetWithBandit (history.foldl updateBanditRewards initialBandits)
        income expenses feedback draws).1.wants ∧
    1/10 ≤ (optimizeBudgetWithBandit (history.foldl updateBanditRewards initialBandits)
        income expenses feedback draws).1.savings := by
  have hsound := foldl_bandit_sound history hh initialBandits
    ⟨⟨le_refl 0, by norm_num [initialBandits]⟩, ⟨le_refl 0, by norm_num [initialBandits]⟩,
     ⟨le_refl 0, by norm_num [initialBandits]⟩⟩
  unfold optimizeBudgetWithBandit
  cases feedback with
  | none =>
      dsimp only
      exact calculateAdaptiveAllocation_invariant _ draws income _
        hsound.1 hsound.2.1 hsound.2.2 hd1 hd2 hd3 hd4 hd5 hd6
  | some f =>
      have hsound2 := updateBanditRewards_sound hsound (hfb f rfl)
      dsimp only
      exact calculateAdaptiveAllocation_invariant _ draws income _
        hsound2.1 hsound2.2.1 hsound2.2.2 hd1 hd2 hd3 hd4 hd5 hd6

/-- Witness for C3: a fresh engine, income 1,00,000, no expenses, no
feedback, neutral draws. -/
theorem optimize_budget_invariant_witness :
    |(optimizeBudgetWithBandit (([] : List Feedback).foldl updateBanditRewards initialBandits)
        100000 [] none ⟨⟨1/2, 0⟩, ⟨1/2, 0⟩, ⟨1/2, 0⟩⟩).1.needs +
      (optimizeBudgetWithBandit (([] : List Feedback).foldl updateBanditRewards initialBandits)
        100000 [] none ⟨⟨1/2, 0⟩, ⟨1/2, 0⟩, ⟨1/2, 0⟩⟩).1.wants +
      (optimizeBudgetWithBandit (([] : List Feedback).foldl updateBanditRewards initialBandits)
        100000 [] none ⟨⟨1/2, 0⟩, ⟨1/2, 0⟩, ⟨1/2, 0⟩⟩).1.savings - 1| ≤ 1/1000 ∧
    1/10 ≤ (optimizeBudgetWithBandit (([] : List Feedback).foldl updateBanditRewards initialBandits)
        100000 [] none ⟨⟨1/2, 0⟩, ⟨1/2, 0⟩, ⟨1/2, 0⟩⟩).1.needs ∧
    1/10 ≤ (optimizeBudgetWithBandit (([] : List Feedback).foldl updateBanditRewards initialBandits)
        100000 [] none ⟨⟨1/2, 0⟩, ⟨1/2, 0⟩, ⟨1/2, 0⟩⟩).1.wants ∧
    1/10 ≤ (optimizeBudgetWithBandit (([] : List Feedback).foldl updateBanditRewards initialBandits)
        100000 [] none ⟨⟨1/2, 0⟩, ⟨1/2, 0⟩, ⟨1/2, 0⟩⟩).1.savings :=
  optimize_budget_invariant [] (fun f hf => absurd hf (List.not_mem_nil f))
    100000 [] none (fun f h => Option.noConfusion h)
    ⟨⟨1/2, 0⟩, ⟨1/2, 0⟩, ⟨1/2, 0⟩⟩
    (by norm_num) (by norm_num) (by norm_num) (by norm_num) (by norm_num) (by norm_num)

theorem pyRound3_le_one {y : ℚ} (h : y ≤ 1) : pyRound3 y ≤ 1 := by
  have hr := abs_roundHalfEven_sub_le (1000 * y)
  rw [abs_le] at hr
  have h2 : roundHalfEven (1000 * y) ≤ 1000 := by
    by_contra hc
    push_neg at hc
    have hcq : (1001:ℚ) ≤ (roundHalfEven (1000 * y) : ℚ) := by exact_mod_cast hc
    linarith [hr.2]
  have h2q : (roundHalfEven (1000 * y) : ℚ) ≤ 1000 := by exact_mod_cast h2
  unfold pyRound3
  rw [div_le_one (by norm_num : (0:ℚ) < 1000)]
  exact h2q

theorem pyRound3_sept_sum (y1 y2 y3 y4 y5 y6 y7 : ℚ)
    (hsum : y1 + (y2 + (y3 + (y4 + (y5 + (y6 + y7))))) = 1) :
    |pyRound3 y1 + (pyRound3 y2 + (pyRound3 y3 + (pyRound3 y4 +
      (pyRound3 y5 + (pyRound3 y6 + pyRound3 y7))))) - 1| ≤ 3/1000 := by
  have h1 := abs_roundHalfEven_sub_le (1000 * y1)
  have h2 := abs_roundHalfEven_sub_le (1000 * y2)
  have h3 := abs_roundHalfEven_sub_le (1000 * y3)
  have h4 := abs_roundHalfEven_sub_le (1000 * y4)
  have h5 := abs_roundHalfEven_sub_le (1000 * y5)
  have h6 := abs_roundHalfEven_sub_le (1000 * y6)
  have h7 := abs_roundHalfEven_sub_le (1000 * y7)
  rw [abs_le] at h1 h2 h3 h4 h5 h6 h7
  set n1 := roundHalfEven (1000 * y1) with hn1
  set n2 := roundHalfEven (1000 * y2) with hn2
  set n3 := roundHalfEven (1000 * y3) with hn3
  set n4 := roundHalfEven (1000 * y4) with hn4
  set n5 := roundHalfEven (1000 * y5) with hn5
  set n6 := roundHalfEven (1000 * y6) with hn6
  set n7 := roundHalfEven (1000 * y7) with hn7
  have hNq : |((n1 + n2 + n3 + n4 + n5 + n6 + n7 - 1000 : ℤ) : ℚ)| ≤ 7/2 := by
    rw [abs_le]
    push_cast
    constructor <;>
      nlinarith [h1.1, h1.2, h2.1, h2.2, h3.1, h3.2, h4.1, h4.2,
        h5.1, h5.2, h6.1, h6.2, h7.1, h7.2]
  have hNz : |(n1 + n2 + n3 + n4 + n5 + n6 + n7 - 1000 : ℤ)| ≤ 3 := by
    by_contra hcon
    push_neg at hcon
    have h4le : (4:ℤ) ≤ |n1 + n2 + n3 + n4 + n5 + n6 + n7 - 1000| := hcon
    have : (4:ℚ) ≤ |((n1 + n2 + n3 + n4 + n5 + n6 + n7 - 1000 : ℤ) : ℚ)| := by
      rw [← Int.cast_abs]
      exact_mod_cast h4le
    linarith
  have hNq3 : |((n1 + n2 + n3 + n4 + n5 + n6 + n7 - 1000 : ℤ) : ℚ)| ≤ 3 := by
    rw [← Int.cast_abs]
    exact_mod_cast hNz
  have heq : pyRound3 y1 + (pyRound3 y2 + (pyRound3 y3 + (pyRound3 y4 +
      (pyRound3 y5 + (pyRound3 y6 + pyRound3 y7))))) - 1 =
      ((n1 + n2 + n3 + n4 + n5 + n6 + n7 - 1000 : ℤ) : ℚ) / 1000 := by
    unfold pyRound3
    rw [← hn1, ← hn2, ← hn3, ← hn4, ← hn5, ← hn6, ← hn7]
    push_cast
    ring
  rw [heq, abs_div, abs_of_pos (by norm_num : (0:ℚ) < 1000),
    div_le_iff₀ (by norm_num : (0:ℚ) < 1000)]
  linarith

theorem equityPct_mem (pid : Fin 5) (p : UserProfile) :
    10/100 ≤ equityPct pid p ∧ equityPct pid p ≤ 85/100 := by
  unfold equityPct
  exact ⟨le_max_left _ _, max_le (by norm_num) (min_le_left _ _)⟩

set_option maxHeartbeats 2000000 in
theorem enhancedAllocation_bounds (e rm : ℚ) (he1 : 10/100 ≤ e) (he2 : e ≤ 85/100) :
    (∀ kv ∈ calculateEnhancedAllocation e rm, 0 ≤ kv.2 ∧ kv.2 ≤ 1) ∧
    |((calculateEnhancedAllocation e rm).map Prod.snd).sum - 1| ≤ 3/1000 := by
  unfold calculateEnhancedAllocation
  dsimp only
  generalize hL : (if rm > 11/10 then e * (50/100) else if rm < 8/10 then e * (65/100)
    else e * (55/100)) = L
  generalize hM : (if rm > 11/10 then e * (35/100) else if rm < 8/10 then e * (20/100)
    else e * (30/100)) = M
  generalize hG : min (10/100) (max (5/100) ((1 - e) * (15/100))) = G
  generalize hCM : max (2/100) (1 - e - (1 - e) * (60/100) - (1 - e) * (25/100) - G) = CM
  have hL0 : 0 ≤ L := by rw [← hL]; split_ifs <;> nlinarith
  have hLu : L ≤ 5525/10000 := by rw [← hL]; split_ifs <;> nlinarith
  have hM0 : 0 ≤ M := by rw [← hM]; split_ifs <;> nlinarith
  have hMu : M ≤ 2975/10000 := by rw [← hM]; split_ifs <;> nlinarith
  have hLM : L + M = e * (85/100) := by rw [← hL, ← hM]; split_ifs <;> ring
  have hG1 : (5:ℚ)/100 ≤ G := by rw [← hG]; exact le_min (by norm_num) (le_max_left _ _)
  have hG2 : G ≤ (10:ℚ)/100 := by rw [← hG]; exact min_le_left _ _
  have hCM1 : (2:ℚ)/100 ≤ CM := by rw [← hCM]; exact le_max_left _ _
  have hCMc : 1 - e - (1 - e) * (60/100) - (1 - e) * (25/100) - G ≤ CM := by
    rw [← hCM]; exact le_max_right _ _
  have hCM2 : CM ≤ 1 := by
    rw [← hCM]; exact max_le (by norm_num) (by nlinarith)
  have r1a : 0 ≤ pyRound3 L := pyRound3_nonneg hL0
  have r1b : pyRound3 L ≤ 1 := pyRound3_le_one (by linarith)
  have r1c : L - 1/2000 ≤ pyRound3 L := pyRound3_ge le_rfl
  have r2a : 0 ≤ pyRound3 M := pyRound3_nonneg hM0
  have r2b : pyRound3 M ≤ 1 := pyRound3_le_one (by linarith)
  have r2c : M - 1/2000 ≤ pyRound3 M := pyRound3_ge le_rfl
  have r3a : 0 ≤ pyRound3 (e * (15/100)) := pyRound3_nonneg (by nlinarith)
  have r3b : pyRound3 (e * (15/100)) ≤ 1 := pyRound3_le_one (by nlinarith)
  have r3c : e * (15/100) - 1/2000 ≤ pyRound3 (e * (15/100)) := pyRound3_ge le_rfl
  have r4a : 0 ≤ pyRound3 ((1 - e) * (60/100)) := pyRound3_nonneg (by nlinarith)
  have r4b : pyRound3 ((1 - e) * (60/100)) ≤ 1 := pyRound3_le_one (by nlinarith)
  have r4c : (1 - e) * (60/100) - 1/2000 ≤ pyRound3 ((1 - e) * (60/100)) :=
    pyRound3_ge le_rfl
  have r5a : 0 ≤ pyRound3 ((1 - e) * (25/100)) := pyRound3_nonneg (by nlinarith)
  have r5b : pyRound3 ((1 - e) * (25/100)) ≤ 1 := pyRound3_le_one (by nlinarith)
  have r5c : (1 - e) * (25/100) - 1/2000 ≤ pyRound3 ((1 - e) * (25/100)) :=
    pyRound3_ge le_rfl
  have r6a : 0 ≤ pyRound3 G := pyRound3_nonneg (by linarith)
  have r6b : pyRound3 G ≤ 1 := pyRound3_le_one (by linarith)
  have r6c : G - 1/2000 ≤ pyRound3 G := pyRound3_ge le_rfl
  have r7a : 0 ≤ pyRound3 CM := pyRound3_nonneg (by linarith)
  have r7b : pyRound3 CM ≤ 1 := pyRound3_le_one (by linarith)
  have r7c : CM - 1/2000 ≤ pyRound3 CM := pyRound3_ge le_rfl
  simp only [List.map_cons, List.map_nil, List.sum_cons, List.sum_nil, add_zero]
  generalize hT : pyRound3 L + (pyRound3 M + (pyRound3 (e * (15/100)) +
    (pyRound3 ((1 - e) * (60/100)) + (pyRound3 ((1 - e) * (25/100)) +
      (pyRound3 G + pyRound3 CM))))) = T
  have hT1 : 1993/2000 ≤ T := by rw [← hT]; linarith
  have hTpos : 0 < T := by linarith
  have hTne : T ≠ 0 := ne_of_gt hTpos
  have hv1T : pyRound3 L ≤ T := by rw [← hT]; linarith
  have hv2T : pyRound3 M ≤ T := by rw [← hT]; linarith
  have hv3T : pyRound3 (e * (15/100)) ≤ T := by rw [← hT]; linarith
  have hv4T : pyRound3 ((1 - e) * (60/100)) ≤ T := by rw [← hT]; linarith
  have hv5T : pyRound3 ((1 - e) * (25/100)) ≤ T := by rw [← hT]; linarith
  have hv6T : pyRound3 G ≤ T := by rw [← hT]; linarith
  have hv7T : pyRound3 CM ≤ T := by rw [← hT]; linarith
  split_ifs with hB
  · constructor
    · intro kv hkv
      simp only [List.map_cons, List.map_nil, List.mem_cons,
        List.not_mem_nil, or_false] at hkv
      rcases hkv with h|h|h|h|h|h|h <;> subst h
      · exact ⟨pyRound3_nonneg (div_nonneg r1a hTpos.le),
          pyRound3_le_one ((div_le_one hTpos).mpr hv1T)⟩
      · exact ⟨pyRound3_nonneg (div_nonneg r2a hTpos.le),
          pyRound3_le_one ((div_le_one hTpos).mpr hv2T)⟩
      · exact ⟨pyRound3_nonneg (div_nonneg r3a hTpos.le),
          pyRound3_le_one ((div_le_one hTpos).mpr hv3T)⟩
      · exact ⟨pyRound3_nonneg (div_nonneg r4a hTpos.le),
          pyRound3_le_one ((div_le_one hTpos).mpr hv4T)⟩
      · exact ⟨pyRound3_nonneg (div_nonneg r5a hTpos.le),
          pyRound3_le_one ((div_le_one hTpos).mpr hv5T)⟩
      · exact ⟨pyRound3_nonneg (div_nonneg r6a hTpos.le),
          pyRound3_le_one ((div_le_one hTpos).mpr hv6T)⟩
      · exact ⟨pyRound3_nonneg (div_nonneg r7a hTpos.le),
          pyRound3_le_one ((div_le_one hTpos).mpr hv7T)⟩
    · simp only [List.map_cons, List.map_nil, List.sum_cons, List.sum_nil, add_zero]
      have hys : pyRound3 L / T + (pyRound3 M / T + (pyRound3 (e * (15/100)) / T +
          (pyRound3 ((1 - e) * (60/100)) / T + (pyRound3 ((1 - e) * (25/100)) / T +
            (pyRound3 G / T + pyRound3 CM / T))))) = 1 := by
        have hc : pyRound3 L / T + (pyRound3 M / T + (pyRound3 (e * (15/100)) / T +
            (pyRound3 ((1 - e) * (60/100)) / T + (pyRound3 ((1 - e) * (25/100)) / T +
              (pyRound3 G / T + pyRound3 CM / T))))) =
            (pyRound3 L + (pyRound3 M + (pyRound3 (e * (15/100)) +
              (pyRound3 ((1 - e) * (60/100)) + (pyRound3 ((1 - e) * (25/100)) +
                (pyRound3 G + pyRound3 CM)))))) / T := by
          ring
        rw [hc, hT, div_self hTne]
      exact pyRound3_sept_sum _ _ _ _ _ _ _ hys
  · push_neg at hB
    constructor
    · intro kv hkv
      simp only [List.mem_cons, List.not_mem_nil, or_false] at hkv
      rcases hkv with h|h|h|h|h|h|h <;> subst h
      · exact ⟨r1a, r1b⟩
      · exact ⟨r2a, r2b⟩
      · exact ⟨r3a, r3b⟩
      · exact ⟨r4a, r4b⟩
      · exact ⟨r5a, r5b⟩
      · exact ⟨r6a, r6b⟩
      · exact ⟨r7a, r7b⟩
    · simp only [List.map_cons, List.map_nil, List.sum_cons, List.sum_nil, add_zero]
      rw [hT]
      linarith

/-- C2 (amended): for every valid UserProfile (age > 0, income > 0,
savings ≥ 0, dependents ≥ 0, risk_tolerance 1-5) and every persona the
clusterer may assign, every fraction of the returned allocation lies in
[0,1], and the fractions sum to 1 within an absolute tolerance of 3e-3
(the 1e-3 tolerance of the original claim fails: renormalizing the
already-rounded entries and rounding again can leave the sum at 1.002). -/
theorem persona_allocation_in_range (pid : Fin 5) (p : UserProfile)
    (h1 : 0 < p.age) (h2 : 0 < p.income) (h3 : 0 ≤ p.savings)
    (h4 : 0 ≤ p.dependents) (h5 : 1 ≤ p.risk_tolerance) (h6 : p.risk_tolerance ≤ 5) :
    (∀ kv ∈ (getUserPersona pid p).allocation, 0 ≤ kv.2 ∧ kv.2 ≤ 1) ∧
    |((getUserPersona pid p).allocation.map Prod.snd).sum - 1| ≤ 3/1000 :=
  enhancedAllocation_bounds _ _ (equityPct_mem pid p).1 (equityPct_mem pid p).2

/-- Witness for C2 (amended) at the valid profile `midProfile` and the
balanced persona. -/
theorem persona_allocation_in_range_witness :
    (∀ kv ∈ (getUserPersona 2 midProfile).allocation, 0 ≤ kv.2 ∧ kv.2 ≤ 1) ∧
    |((getUserPersona 2 midProfile).allocation.map Prod.snd).sum - 1| ≤ 3/1000 :=
  persona_allocation_in_range 2 midProfile (by decide) (by norm_num [midProfile])
    (by norm_num [midProfile]) (by decide) (by decide) (by decide)

set_option maxRecDepth 8000 in
/-- C2 counterexample: the valid profile (age 26, income 10,00,000,
savings 2,00,000, 0 dependents, risk tolerance 3) under the balanced
persona "Mid-age Balanced" (risk_mult 1.0) yields equity fraction 0.504;
the pre-normalization rounded entries total 1.02, and after dividing by
the total and re-rounding, the seven fractions sum to 1.002 — outside the
claimed 1e-3 tolerance. -/
theorem persona_allocation_sum_counterexample :
    (0 < midProfile.age ∧ 0 < midProfile.income ∧ 0 ≤ midProfile.savings ∧
      0 ≤ midProfile.dependents ∧ 1 ≤ midProfile.risk_tolerance ∧
      midProfile.risk_tolerance ≤ 5) ∧
    ((getUserPersona 2 midProfile).allocation.map Prod.snd).sum = 501/500 ∧
    ¬ |((getUserPersona 2 midProfile).allocation.map Prod.snd).sum - 1| ≤ 1/1000 := by
  have hpm : personaRiskMult 2 = 1 := rfl
  have he : equityPct 2 midProfile = 63/125 := by
    norm_num [equityPct, baseEquityPct, riskFactor, incomeFactor, dependentsFactor,
      midProfile, hpm, min_def, max_def]
  have halloc : (getUserPersona 2 midProfile).allocation =
      calculateEnhancedAllocation (63/125) 1 := by
    rw [show (getUserPersona 2 midProfile).allocation =
      calculateEnhancedAllocation (equityPct 2 midProfile) (personaRiskMult 2) from rfl,
      he, hpm]
  have hsum : ((calculateEnhancedAllocation (63/125) 1).map Prod.snd).sum = 501/500 := by
    have e1 : pyRound3 ((693:ℚ)/2500) = 277/1000 := by
      norm_num [pyRound3, roundHalfEven, Int.fract]
    have e2 : pyRound3 ((189:ℚ)/1250) = 151/1000 := by
      norm_num [pyRound3, roundHalfEven, Int.fract]
    have e3 : pyRound3 ((189:ℚ)/2500) = 76/1000 := by
      norm_num [pyRound3, roundHalfEven, Int.fract]
    have e4 : pyRound3 ((186:ℚ)/625) = 298/1000 := by
      norm_num [pyRound3, roundHalfEven, Int.fract]
    have e5 : pyRound3 ((31:ℚ)/250) = 124/1000 := by
      norm_num [pyRound3, roundHalfEven, Int.fract]
    have e6 : pyRound3 ((93:ℚ)/1250) = 74/1000 := by
      norm_num [pyRound3, roundHalfEven, Int.fract]
    have e7 : pyRound3 ((1:ℚ)/50) = 20/1000 := by
      norm_num [pyRound3, roundHalfEven, Int.fract]
    have f1 : pyRound3 ((277:ℚ)/1020) = 272/1000 := by
      norm_num [pyRound3, roundHalfEven, Int.fract]
    have f2 : pyRound3 ((151:ℚ)/1020) = 148/1000 := by
      norm_num [pyRound3, roundHalfEven, Int.fract]
    have f3 : pyRound3 ((19:ℚ)/255) = 75/1000 := by
      norm_num [pyRound3, roundHalfEven, Int.fract]
    have f4 : pyRound3 ((149:ℚ)/510) = 292/1000 := by
      norm_num [pyRound3, roundHalfEven, Int.fract]
    have f5 : pyRound3 ((31:ℚ)/255) = 122/1000 := by
      norm_num [pyRound3, roundHalfEven, Int.fract]
    have f6 : pyRound3 ((37:ℚ)/510) = 73/1000 := by
      norm_num [pyRound3, roundHalfEven, Int.fract]
    have f7 : pyRound3 ((1:ℚ)/51) = 20/1000 := by
      norm_num [pyRound3, roundHalfEven, Int.fract]
    have habs : |(1:ℚ)/50| = 1/50 := abs_of_pos (by norm_num)
    norm_num [calculateEnhancedAllocation, e1, e2, e3, e4, e5, e6, e7, habs,
      f1, f2, f3, f4, f5, f6, f7]
  refine ⟨⟨by decide, by norm_num [midProfile], by norm_num [midProfile],
    by decide, by decide, by decide⟩, ?_, ?_⟩
  · rw [halloc]; exact hsum
  · rw [halloc, hsum, show (501:ℚ)/500 - 1 = 1/500 from by norm_num,
      abs_of_pos (by norm_num : (0:ℚ) < 1/500)]
    norm_num

end Creda
